import Mathlib

/-!
Verification of the guestbook web application (Tornado + PostgreSQL).

The repository stores guestbook entries in a single `entry` table; an
`EntryRepository` offers insert / count / paginated-fetch, and two request
handlers expose the data as HTML and JSON.  We embed the data-access layer
and the handlers as pure Lean functions over an explicit database state.
-/

namespace Guestbook

/-- Page size of the listing; `MAX_ENTRIES_PER_PAGE = 5` in guestbook.py. -/
def MAX_ENTRIES_PER_PAGE : Nat := 5

/-- One guestbook entry, mirroring the `Entry` class and the `entry` table:
id, name, email, message, posted.  The `posted` timestamp is modelled as a
natural number (timestamps are totally ordered; the server clock assigns
them on insert). -/
structure Entry where
  id : Nat
  name : String
  email : String
  message : String
  posted : Nat
deriving DecidableEq, Repr

/-- The database state seen by `EntryRepository`: the rows of the `entry`
table, together with the storage-generated id sequence and the server
clock that stamps `posted` on insert. -/
structure DB where
  rows : List Entry
  nextId : Nat
  clock : Nat
deriving DecidableEq, Repr

/-- An empty database. -/
def DB.empty : DB := ⟨[], 1, 0⟩

/-- `EntryRepository.add_entry`: INSERT INTO "entry" (name, email, message)
VALUES ($1,$2,$3).  The id is generated by storage and `posted` is
server-assigned (DEFAULT now()); the clock advances past the stamp used. -/
def add_entry (db : DB) (name email message : String) : DB :=
  { rows := db.rows ++ [⟨db.nextId, name, email, message, db.clock⟩],
    nextId := db.nextId + 1,
    clock := db.clock + 1 }

/-- `EntryRepository.count_entries`: SELECT count(*) FROM "entry". -/
def count_entries (db : DB) : Nat := db.rows.length

/-- The result set of ORDER BY posted DESC: a permutation of the table rows
that is non-increasing in `posted`. -/
def sortByPostedDesc (rows : List Entry) : List Entry :=
  rows.mergeSort (fun a b => b.posted ≤ a.posted)

/-- `EntryRepository.get_entries(page)`: SELECT ... ORDER BY posted DESC
LIMIT 5 OFFSET (page-1)*5.  The handler only calls this with page ≥ 1, so
the offset `(page-1)*5` is non-negative there. -/
def get_entries (db : DB) (page : Int) : List Entry :=
  ((sortByPostedDesc db.rows).drop ((page - 1) * (MAX_ENTRIES_PER_PAGE : Int)).toNat).take
    MAX_ENTRIES_PER_PAGE

/-- Well-formedness of a database state, maintained by the repository:
every stored timestamp is in the clock's past, and rows were inserted at
strictly increasing timestamps (so timestamps are pairwise distinct). -/
def DB.WF (db : DB) : Prop :=
  (∀ e ∈ db.rows, e.posted < db.clock) ∧
    db.rows.Pairwise (fun a b => a.posted < b.posted)

instance (db : DB) : Decidable db.WF := by
  unfold DB.WF; infer_instance

/-- A repository operation: an insert, a count query, or a paginated fetch. -/
inductive RepoOp where
  | add (name email message : String)
  | count
  | list (page : Int)
deriving DecidableEq, Repr

/-- State transition of one repository operation.  `count_entries` and
`get_entries` are SELECT queries: they return data and leave the table
unchanged; `add_entry` is the only operation that writes. -/
def applyOp (db : DB) : RepoOp → DB
  | .add n e m => add_entry db n e m
  | .count => db
  | .list _ => db

/-- Run a sequence of repository operations. -/
def applyOps (db : DB) : List RepoOp → DB
  | [] => db
  | op :: ops => applyOps (applyOp db op) ops

/-! ### HTTP argument handling -/

/-- Characters with surrounding whitespace removed. -/
def stripChars (cs : List Char) : List Char :=
  ((cs.dropWhile Char.isWhitespace).reverse.dropWhile Char.isWhitespace).reverse

/-- Python's `str.strip()` / the stripping Tornado applies to argument
values: surrounding whitespace removed. -/
def pyStrip (s : String) : String := ⟨stripChars s.data⟩

/-- Request arguments as a multimap (Tornado keeps every value sent for a
name; `get_body_argument` / `get_query_argument` return the last one,
stripped of surrounding whitespace). -/
def get_argument (args : List (String × String)) (nm : String) : Option String :=
  match (args.filter (fun kv => kv.fst == nm)).getLast? with
  | some kv => some (pyStrip kv.snd)
  | none => none

/-- Numeric value of a digit string (most significant digit first). -/
def digitsVal (cs : List Char) : Nat :=
  cs.foldl (fun acc c => acc * 10 + (c.toNat - Char.toNat '0')) 0

/-- Python's built-in `int(s)` on a string, for the inputs relevant here:
surrounding whitespace is ignored, an optional single sign is allowed,
and the rest must be one or more decimal digits; anything else raises
ValueError, modelled as `none`. -/
def pyInt (s : String) : Option Int :=
  match stripChars s.data with
  | [] => none
  | c :: rest =>
    if c = '-' then
      if rest ≠ [] ∧ rest.all Char.isDigit then some (-(digitsVal rest : Int)) else none
    else if c = '+' then
      if rest ≠ [] ∧ rest.all Char.isDigit then some (digitsVal rest : Int) else none
    else
      if (c :: rest).all Char.isDigit then some (digitsVal (c :: rest) : Int) else none

/-! ### HTML handler (`GuestbookHandler`) -/

/-- Outcome of an HTML-handler request: a 302 redirect, an HTTP error
status, or a rendered `guestbook.html` page with its template variables. -/
inductive HtmlResponse where
  | redirect (location : String)
  | error (status : Nat)
  | render (entries : List Entry) (page : Int) (total_entries : Nat)
deriving DecidableEq, Repr

/-- HTTP status code of an HTML-handler outcome (`redirect` issues 302,
a successful `render` is 200). -/
def HtmlResponse.statusOf : HtmlResponse → Nat
  | .redirect _ => 302
  | .error s => s
  | .render _ _ _ => 200

/-- `GuestbookHandler.post`: reads the form fields name, email, message via
`get_body_argument` without a default — a missing one raises Tornado's
MissingArgumentError, a 400 — then inserts and redirects to /guestbook. -/
def GuestbookHandler.post (db : DB) (body : List (String × String)) :
    DB × HtmlResponse :=
  match get_argument body "name" with
  | none => (db, .error 400)
  | some name =>
    match get_argument body "email" with
    | none => (db, .error 400)
    | some email =>
      match get_argument body "message" with
      | none => (db, .error 400)
      | some message =>
        (add_entry db name email message, .redirect "/guestbook")

/-- `GuestbookHandler.get`: `page = int(self.get_query_argument('page','1'))`;
a value `int` cannot parse raises ValueError, which Tornado reports as an
uncaught exception, a 500; `page < 1` raises HTTPError(400); otherwise the
page of entries is rendered together with the total count. -/
def GuestbookHandler.get (db : DB) (pageArg : Option String) : HtmlResponse :=
  match pyInt (pageArg.getD "1") with
  | none => .error 500
  | some page =>
    if page < 1 then .error 400
    else .render (get_entries db page) page (count_entries db)

/-! ### JSON API handler (`GuestbookAPIHandler`) -/

/-- Response of the JSON API's GET: status, content type, and the JSON body's
two components (the entries and the total entry count). -/
structure ApiGetResponse where
  status : Nat
  contentType : String
  entries : List Entry
  total_entries : Nat
deriving DecidableEq, Repr

/-- Modelled from the spec: `GuestbookAPIHandler.post` is imported by
main.py and the tests but its definition is not under src/.  Spec: "POST
accepts a JSON body with required name/email/message; missing fields yield
400; success yields 201."  The JSON object body is modelled by its string
fields; the result is the new state and the response status. -/
def GuestbookAPIHandler.post (db : DB) (body : List (String × String)) :
    DB × Nat :=
  match get_argument body "name", get_argument body "email",
      get_argument body "message" with
  | some name, some email, some message =>
    (add_entry db name email message, 201)
  | _, _, _ => (db, 400)

/-- Modelled from the spec: `GuestbookAPIHandler.get` is imported by main.py
and the tests but its definition is not under src/.  Spec: "GET returns
entries and total count as JSON with 200 and a JSON content type." -/
def GuestbookAPIHandler.get (db : DB) : ApiGetResponse :=
  { status := 200,
    contentType := "application/json",
    entries := get_entries db 1,
    total_entries := count_entries db }

/-! ### Properties of the ORDER BY posted DESC result set -/

theorem sortByPostedDesc_perm (rows : List Entry) :
    (sortByPostedDesc rows).Perm rows :=
  List.mergeSort_perm rows _

theorem sortByPostedDesc_length (rows : List Entry) :
    (sortByPostedDesc rows).length = rows.length :=
  List.length_mergeSort rows

theorem sortByPostedDesc_mem (rows : List Entry) (x : Entry) :
    x ∈ sortByPostedDesc rows ↔ x ∈ rows :=
  List.mem_mergeSort

theorem sortByPostedDesc_sorted (rows : List Entry) :
    (sortByPostedDesc rows).Pairwise (fun a b => b.posted ≤ a.posted) := by
  have h := @List.sorted_mergeSort Entry
    (fun a b => decide (b.posted ≤ a.posted))
    (fun a b c hab hbc => by
      simp only [decide_eq_true_eq] at hab hbc ⊢; omega)
    (fun a b => by
      simp only [Bool.or_eq_true, decide_eq_true_eq]; omega) rows
  exact h.imp (fun hab => by simpa using hab)

theorem sortByPostedDesc_strict (rows : List Entry)
    (hne : rows.Pairwise (fun a b => a.posted ≠ b.posted)) :
    (sortByPostedDesc rows).Pairwise (fun a b => b.posted < a.posted) := by
  have hperm := sortByPostedDesc_perm rows
  have hne' : (sortByPostedDesc rows).Pairwise (fun a b => a.posted ≠ b.posted) :=
    (hperm.pairwise_iff (fun h => h.symm)).mpr hne
  exact ((sortByPostedDesc_sorted rows).and hne').imp
    (fun hab => lt_of_le_of_ne hab.1 (Ne.symm hab.2))

/-- In a list sorted non-increasingly by `posted`, an element whose `posted`
strictly dominates every other element's is the head. -/
theorem head_of_sorted_unique_max (l : List Entry) (x : Entry)
    (hx : x ∈ l) (hmax : ∀ y ∈ l, y ≠ x → y.posted < x.posted)
    (hs : l.Pairwise (fun a b => b.posted ≤ a.posted)) :
    l.head? = some x := by
  cases l with
  | nil => cases hx
  | cons h t =>
    rw [List.pairwise_cons] at hs
    rcases List.mem_cons.mp hx with hxh | hxt
    · rw [hxh]; rfl
    · have hle : x.posted ≤ h.posted := hs.1 x hxt
      by_cases hhx : h = x
      · rw [hhx]; rfl
      · have := hmax h (List.mem_cons_self h t) hhx
        omega

/-- Existing rows survive, unchanged and in place, any sequence of
repository operations. -/
theorem applyOps_take (db : DB) (ops : List RepoOp) :
    (applyOps db ops).rows.take db.rows.length = db.rows := by
  induction ops generalizing db with
  | nil => simp [applyOps]
  | cons op ops ih =>
    have hstep : (applyOp db op).rows.take db.rows.length = db.rows := by
      cases op with
      | add n e m => simp [applyOp, add_entry, List.take_left]
      | count => simp [applyOp]
      | list p => simp [applyOp]
    have hlen : db.rows.length ≤ (applyOp db op).rows.length := by
      cases op with
      | add n e m => simp [applyOp, add_entry]
      | count => simp [applyOp]
      | list p => simp [applyOp]
    show (applyOps (applyOp db op) ops).rows.take db.rows.length = db.rows
    calc (applyOps (applyOp db op) ops).rows.take db.rows.length
        = ((applyOps (applyOp db op) ops).rows.take
            (applyOp db op).rows.length).take db.rows.length := by
          rw [List.take_take, min_eq_left hlen]
      _ = (applyOp db op).rows.take db.rows.length := by rw [ih]
      _ = db.rows := hstep

/-- C1: for every page number p ≥ 1, `get_entries` returns at most 5 entries,
skips exactly (p-1)*5 entries — the number returned is the page size capped
by what remains of the table after the offset — and the returned entries are
stored rows ordered strictly descending by their posted timestamp. -/
theorem get_entries_paginates (db : DB) (p : Int) (hp : 1 ≤ p) (hwf : db.WF) :
    (get_entries db p).length ≤ MAX_ENTRIES_PER_PAGE ∧
    (get_entries db p).length =
      min MAX_ENTRIES_PER_PAGE
        (count_entries db - ((p - 1) * (MAX_ENTRIES_PER_PAGE : Int)).toNat) ∧
    (get_entries db p).Pairwise (fun a b => b.posted < a.posted) ∧
    ∀ x ∈ get_entries db p, x ∈ db.rows := by
  refine ⟨List.length_take_le _ _, ?_, ?_, ?_⟩
  · unfold get_entries count_entries
    rw [List.length_take, List.length_drop, sortByPostedDesc_length]
  · have hs := sortByPostedDesc_strict db.rows (hwf.2.imp fun h => Nat.ne_of_lt h)
    exact List.Pairwise.sublist
      ((List.take_sublist _ _).trans (List.drop_sublist _ _)) hs
  · intro x hx
    unfold get_entries at hx
    exact (sortByPostedDesc_perm db.rows).subset
      (((List.take_sublist _ _).trans (List.drop_sublist _ _)).subset hx)

/-- A database holding seven entries, for witnessing the pagination claims. -/
def dbSeven : DB :=
  ⟨[⟨1, "a", "a@x", "m1", 0⟩, ⟨2, "b", "b@x", "m2", 1⟩, ⟨3, "c", "c@x", "m3", 2⟩,
    ⟨4, "d", "d@x", "m4", 3⟩, ⟨5, "e", "e@x", "m5", 4⟩, ⟨6, "f", "f@x", "m6", 5⟩,
    ⟨7, "g", "g@x", "m7", 6⟩], 8, 7⟩

/-- Witness for C1: page 2 of a seven-entry table has min 5 (7-5) = 2
entries, strictly descending by posted. -/
theorem get_entries_paginates_witness :
    (1 : Int) ≤ 2 ∧ dbSeven.WF ∧
    (get_entries dbSeven 2).length =
      min MAX_ENTRIES_PER_PAGE
        (count_entries dbSeven - (((2 : Int) - 1) * (MAX_ENTRIES_PER_PAGE : Int)).toNat) ∧
    (get_entries dbSeven 2).Pairwise (fun a b => b.posted < a.posted) :=
  ⟨by decide, by decide,
   (get_entries_paginates dbSeven 2 (by decide) (by decide)).2.1,
   (get_entries_paginates dbSeven 2 (by decide) (by decide)).2.2.1⟩

/-- C6: a page entirely beyond the stored data — offset (p-1)*5 at or past
the row count — yields the empty list. -/
theorem get_entries_beyond_empty (db : DB) (p : Int) (hp : 1 ≤ p)
    (h : (count_entries db : Int) ≤ (p - 1) * (MAX_ENTRIES_PER_PAGE : Int)) :
    get_entries db p = [] := by
  unfold get_entries
  have hk : (sortByPostedDesc db.rows).length ≤
      ((p - 1) * (MAX_ENTRIES_PER_PAGE : Int)).toNat := by
    rw [sortByPostedDesc_length]
    unfold count_entries at h
    simp only [MAX_ENTRIES_PER_PAGE] at h ⊢
    omega
  rw [List.drop_eq_nil_of_le hk, List.take_nil]

/-- Witness for C6: page 3 of a seven-entry table (offset 10 ≥ 7) is empty. -/
theorem get_entries_beyond_empty_witness :
    (1 : Int) ≤ 3 ∧
    (count_entries dbSeven : Int) ≤ ((3 : Int) - 1) * (MAX_ENTRIES_PER_PAGE : Int) ∧
    get_entries dbSeven 3 = [] :=
  ⟨by decide, by decide, get_entries_beyond_empty dbSeven 3 (by decide) (by decide)⟩

/-- C8: stored entries are immutable.  Any sequence of repository operations
leaves every existing row unchanged in place; `add_entry` only appends a
fresh row; the `count` and `list` queries do not modify the state at all. -/
theorem repo_entries_immutable (db : DB) (ops : List RepoOp) :
    ((applyOps db ops).rows.take db.rows.length = db.rows ∧
      ∀ x ∈ db.rows, x ∈ (applyOps db ops).rows) ∧
    (∀ n e m, (add_entry db n e m).rows =
      db.rows ++ [⟨db.nextId, n, e, m, db.clock⟩]) ∧
    applyOp db .count = db ∧ (∀ p, applyOp db (.list p) = db) :=
  ⟨⟨applyOps_take db ops,
    fun x hx => List.mem_of_mem_take (by rw [applyOps_take db ops]; exact hx)⟩,
   fun _ _ _ => rfl, rfl, fun _ => rfl⟩

/-- A single pre-existing entry, for witnessing the immutability claim. -/
def entryOne : Entry := ⟨1, "a", "a@x", "m1", 0⟩

/-- A database holding exactly `entryOne`. -/
def dbOne : DB := ⟨[entryOne], 2, 1⟩

/-- Witness for C8: after an insert and the two queries, the pre-existing
entry is still stored unchanged. -/
theorem repo_entries_immutable_witness :
    entryOne ∈ dbOne.rows ∧
    entryOne ∈ (applyOps dbOne [.add "b" "b@x" "m2", .count, .list 1]).rows :=
  ⟨by decide,
   (repo_entries_immutable dbOne [.add "b" "b@x" "m2", .count, .list 1]).1.2
     entryOne (by decide)⟩

/-- C3: a POST to /guestbook carrying all three form fields redirects to
/guestbook, grows the entry count by one, and the inserted entry shows up
in a subsequent listing of the first page. -/
theorem guestbook_post_full_form (db : DB) (body : List (String × String))
    (n e m : String) (hwf : db.WF)
    (hn : get_argument body "name" = some n)
    (he : get_argument body "email" = some e)
    (hm : get_argument body "message" = some m) :
    (GuestbookHandler.post db body).2 = HtmlResponse.redirect "/guestbook" ∧
    count_entries (GuestbookHandler.post db body).1 = count_entries db + 1 ∧
    (⟨db.nextId, n, e, m, db.clock⟩ : Entry) ∈
      get_entries (GuestbookHandler.post db body).1 1 := by
  have hpost : GuestbookHandler.post db body =
      (add_entry db n e m, HtmlResponse.redirect "/guestbook") := by
    unfold GuestbookHandler.post
    rw [hn, he, hm]
  rw [hpost]
  refine ⟨rfl, by simp [count_entries, add_entry], ?_⟩
  have hmem : (⟨db.nextId, n, e, m, db.clock⟩ : Entry) ∈
      sortByPostedDesc (add_entry db n e m).rows := by
    rw [sortByPostedDesc_mem]
    simp [add_entry]
  have hmax : ∀ y ∈ sortByPostedDesc (add_entry db n e m).rows,
      y ≠ (⟨db.nextId, n, e, m, db.clock⟩ : Entry) →
      y.posted < (⟨db.nextId, n, e, m, db.clock⟩ : Entry).posted := by
    intro y hy hne
    rw [sortByPostedDesc_mem] at hy
    simp only [add_entry, List.mem_append, List.mem_singleton] at hy
    rcases hy with hy | hy
    · exact hwf.1 y hy
    · exact absurd hy hne
  have hhead := head_of_sorted_unique_max _ _ hmem hmax (sortByPostedDesc_sorted _)
  obtain ⟨t, ht⟩ : ∃ t, sortByPostedDesc (add_entry db n e m).rows =
      (⟨db.nextId, n, e, m, db.clock⟩ : Entry) :: t := by
    cases hl : sortByPostedDesc (add_entry db n e m).rows with
    | nil => rw [hl] at hhead; cases hhead
    | cons a t =>
      rw [hl] at hhead
      simp only [List.head?_cons, Option.some.injEq] at hhead
      exact ⟨t, by rw [hhead]⟩
  unfold get_entries
  rw [ht]
  norm_num [MAX_ENTRIES_PER_PAGE]

/-- Witness for C3: posting a full form on the empty database redirects and
the new entry is listed on page 1. -/
theorem guestbook_post_full_form_witness :
    DB.empty.WF ∧
    get_argument [("name", "n"), ("email", "e@x"), ("message", "m")] "name" =
      some "n" ∧
    (GuestbookHandler.post DB.empty
        [("name", "n"), ("email", "e@x"), ("message", "m")]).2 =
      HtmlResponse.redirect "/guestbook" ∧
    (⟨DB.empty.nextId, "n", "e@x", "m", DB.empty.clock⟩ : Entry) ∈
      get_entries (GuestbookHandler.post DB.empty
        [("name", "n"), ("email", "e@x"), ("message", "m")]).1 1 :=
  ⟨by decide, by decide,
   (guestbook_post_full_form DB.empty _ "n" "e@x" "m" (by decide)
     (by decide) (by decide) (by decide)).1,
   (guestbook_post_full_form DB.empty _ "n" "e@x" "m" (by decide)
     (by decide) (by decide) (by decide)).2.2⟩

/-- C9: a POST to /guestbook whose form body lacks one of name, email,
message yields a 400 (Tornado MissingArgumentError) and inserts nothing:
the database state is returned untouched. -/
theorem guestbook_post_missing_field (db : DB) (body : List (String × String))
    (h : get_argument body "name" = none ∨ get_argument body "email" = none ∨
      get_argument body "message" = none) :
    GuestbookHandler.post db body = (db, HtmlResponse.error 400) := by
  unfold GuestbookHandler.post
  cases hn : get_argument body "name" with
  | none => rfl
  | some n =>
    cases he : get_argument body "email" with
    | none => rfl
    | some e =>
      cases hm : get_argument body "message" with
      | none => rfl
      | some m => simp_all

/-- Witness for C9: a body with only name and email gets a 400 and leaves
the empty database empty. -/
theorem guestbook_post_missing_field_witness :
    (get_argument [("name", "n"), ("email", "e@x")] "name" = none ∨
     get_argument [("name", "n"), ("email", "e@x")] "email" = none ∨
     get_argument [("name", "n"), ("email", "e@x")] "message" = none) ∧
    GuestbookHandler.post DB.empty [("name", "n"), ("email", "e@x")] =
      (DB.empty, HtmlResponse.error 400) :=
  ⟨Or.inr (Or.inr (by decide)),
   guestbook_post_missing_field DB.empty [("name", "n"), ("email", "e@x")]
     (Or.inr (Or.inr (by decide)))⟩

/-- C4: a GET on /guestbook whose page parameter parses to an integer below
1 is answered with HTTPError 400 and the listing is not rendered. -/
theorem guestbook_get_rejects_low_page (db : DB) (s : String) (p : Int)
    (hparse : pyInt s = some p) (hlt : p < 1) :
    GuestbookHandler.get db (some s) = HtmlResponse.error 400 ∧
    ∀ es pg t, GuestbookHandler.get db (some s) ≠ HtmlResponse.render es pg t := by
  have h : GuestbookHandler.get db (some s) = HtmlResponse.error 400 := by
    unfold GuestbookHandler.get
    simp only [Option.getD_some]
    rw [hparse]
    simp [hlt]
  exact ⟨h, fun es pg t => by rw [h]; intro hcon; cases hcon⟩

/-- Witness for C4: page=0 yields the 400 error response. -/
theorem guestbook_get_rejects_low_page_witness :
    pyInt "0" = some 0 ∧ (0 : Int) < 1 ∧
    GuestbookHandler.get DB.empty (some "0") = HtmlResponse.error 400 :=
  ⟨by decide, by decide,
   (guestbook_get_rejects_low_page DB.empty "0" 0 (by decide) (by decide)).1⟩

/-- Counterexample to C5: the page value "abc" is not a valid page, yet the
response is a 500 — `int('abc')` raises ValueError, which Tornado reports
as an internal server error — not a 4xx status. -/
theorem guestbook_get_nonnumeric_counterexample :
    (GuestbookHandler.get DB.empty (some "abc")).statusOf = 500 ∧
    ¬(400 ≤ (GuestbookHandler.get DB.empty (some "abc")).statusOf ∧
      (GuestbookHandler.get DB.empty (some "abc")).statusOf < 500) := by
  decide

/-- Amended C5: a page value parsing to an integer below 1 gets status 400
(a 4xx); a page value that does not parse as an integer gets status 500,
not a 4xx. -/
theorem guestbook_get_bad_page_statuses (db : DB) (s : String) :
    (∀ p, pyInt s = some p → p < 1 →
      (GuestbookHandler.get db (some s)).statusOf = 400) ∧
    (pyInt s = none → (GuestbookHandler.get db (some s)).statusOf = 500) := by
  constructor
  · intro p hp hlt
    unfold GuestbookHandler.get
    simp only [Option.getD_some]
    rw [hp]
    simp [hlt, HtmlResponse.statusOf]
  · intro hp
    unfold GuestbookHandler.get
    simp only [Option.getD_some]
    rw [hp]
    rfl

/-- Witness for the amended C5: page=0 yields 400; page=abc yields 500. -/
theorem guestbook_get_bad_page_statuses_witness :
    pyInt "0" = some 0 ∧ (0 : Int) < 1 ∧ pyInt "abc" = none ∧
    (GuestbookHandler.get DB.empty (some "0")).statusOf = 400 ∧
    (GuestbookHandler.get DB.empty (some "abc")).statusOf = 500 :=
  ⟨by decide, by decide, by decide,
   (guestbook_get_bad_page_statuses DB.empty "0").1 0 (by decide) (by decide),
   (guestbook_get_bad_page_statuses DB.empty "abc").2 (by decide)⟩

/-- C10: a GET on /guestbook without a page parameter behaves exactly as
page=1 — `get_query_argument('page', '1')` supplies the default — and
renders the first page of entries with the total count. -/
theorem guestbook_get_default_page (db : DB) :
    GuestbookHandler.get db none = GuestbookHandler.get db (some "1") ∧
    GuestbookHandler.get db none =
      HtmlResponse.render (get_entries db 1) 1 (count_entries db) := by
  have h1 : pyInt "1" = some 1 := by decide
  refine ⟨rfl, ?_⟩
  unfold GuestbookHandler.get
  simp only [Option.getD_none]
  rw [h1]
  norm_num

/-- C2: a POST to /api/v1/entries with any of the three required JSON
fields missing is answered 400; with all three present it is answered 201. -/
theorem api_post_statuses (db : DB) (body : List (String × String)) :
    ((get_argument body "name" = none ∨ get_argument body "email" = none ∨
      get_argument body "message" = none) →
      (GuestbookAPIHandler.post db body).2 = 400) ∧
    (∀ n e m, get_argument body "name" = some n →
      get_argument body "email" = some e →
      get_argument body "message" = some m →
      (GuestbookAPIHandler.post db body).2 = 201) := by
  constructor
  · intro h
    unfold GuestbookAPIHandler.post
    cases hn : get_argument body "name" <;>
      cases he : get_argument body "email" <;>
        cases hm : get_argument body "message" <;>
          simp_all
  · intro n e m hn he hm
    unfold GuestbookAPIHandler.post
    rw [hn, he, hm]

/-- The API test's invalid body: only a message field. -/
def apiBodyBad : List (String × String) := [("message", "Bad Request")]

/-- The API test's valid body: all three fields. -/
def apiBodyGood : List (String × String) :=
  [("name", "Test"), ("email", "test@example.org"), ("message", "Good")]

/-- Witness for C2, following the unit tests: the body missing name and
email gets 400, the full body gets 201. -/
theorem api_post_statuses_witness :
    get_argument apiBodyBad "name" = none ∧
    (GuestbookAPIHandler.post DB.empty apiBodyBad).2 = 400 ∧
    get_argument apiBodyGood "name" = some "Test" ∧
    (GuestbookAPIHandler.post DB.empty apiBodyGood).2 = 201 :=
  ⟨by decide, (api_post_statuses DB.empty apiBodyBad).1 (Or.inl (by decide)),
   by decide,
   (api_post_statuses DB.empty apiBodyGood).2 "Test" "test@example.org" "Good"
     (by decide) (by decide) (by decide)⟩

/-- C7: a GET on /api/v1/entries is answered 200 with content type
application/json and a body carrying the entries and the total count. -/
theorem api_get_ok (db : DB) :
    (GuestbookAPIHandler.get db).status = 200 ∧
    (GuestbookAPIHandler.get db).contentType = "application/json" ∧
    (GuestbookAPIHandler.get db).entries = get_entries db 1 ∧
    (GuestbookAPIHandler.get db).total_entries = count_entries db :=
  ⟨rfl, rfl, rfl, rfl⟩

end Guestbook
